import Mathlib

/-!
Shallow embedding of the deepseek-ai-web-crawler repository's
pagination / extraction / deduplication core:

* `src/utils/data_utils.py` : `is_duplicate_product`, `is_complete_product`,
  `save_products_to_csv`;
* `src/utils/scraper_utils.py` : `check_no_results`, `fetch_and_process_page`
  (its per-product loop is `processProducts`, its post-marker phase is
  `extractionPhase`);
* `src/main.py` : the venue crawl loop (`mainStep`, `completeVenues`,
  `mainSave`).

Python values that records can hold are modelled by `Val` (strings, None,
booleans) with Python truthiness as `truthy`; a dict is an association list
`Record`.  The fetch/extract collaborator result object is `CrawlResult`
(`success`, `cleaned_html`, `extracted_content`, `error_message`), and
`json.loads` is passed in as a function `loads` returning `Except`:
`Except.error` models a raised exception propagating out of the embedded
function (the source wraps no `json.loads` call in a try block).
-/

/-- A Python value as it occurs in an extracted record: a string, `None`,
or a boolean. -/
inductive Val where
  | vstr (s : String)
  | vnull
  | vbool (b : Bool)
  deriving DecidableEq

/-- Python truthiness of a `Val`: empty string, `None` and `False` are
falsy. -/
def truthy : Val → Bool
  | Val.vstr s => !(s == "")
  | Val.vnull => false
  | Val.vbool b => b

/-- A record (Python dict) extracted from a page: field name to value. -/
abbrev Record := List (String × Val)

/-- `product[key]` / `product.get(key)`: first binding of `key`. -/
def lookupKey : Record → String → Option Val
  | [], _ => none
  | (k1, v) :: rest, key => if k1 == key then some v else lookupKey rest key

/-- `key in product`. -/
def hasKey (product : Record) (key : String) : Bool :=
  (lookupKey product key).isSome

/-- `product.pop(key, None)`: the record with the binding of `key` removed. -/
def eraseKey : Record → String → Record
  | [], _ => []
  | (k1, v) :: rest, key =>
    if k1 == key then eraseKey rest key else (k1, v) :: eraseKey rest key

/-- `data_utils.is_duplicate_product`: membership of the product name in the
set of names already seen. -/
def is_duplicate_product (product_name : Val) (seen_names : List Val) : Bool :=
  decide (product_name ∈ seen_names)

/-- `data_utils.is_complete_product`:
`all(key in product and product[key] for key in required_keys)`. -/
def is_complete_product (product : Record) (required_keys : List String) : Bool :=
  required_keys.all (fun key =>
    match lookupKey product key with
    | some v => truthy v
    | none => false)

/-- `seen_names.add(name)` on a Python set: insertion, a no-op when the name
is already present. -/
def addSeen (seen_names : List Val) (product_name : Val) : List Val :=
  if product_name ∈ seen_names then seen_names else seen_names ++ [product_name]

/-- The result object returned by `crawler.arun` as far as the core reads
it: `success`, `cleaned_html`, `extracted_content` (None or a string) and
`error_message`. -/
structure CrawlResult where
  success : Bool
  cleaned_html : String
  extracted_content : Option String
  error_message : String
  deriving DecidableEq

/-- Truthiness of `result.extracted_content` (None and `""` are falsy). -/
def contentTruthy : Option String → Bool
  | none => false
  | some s => !(s == "")

/-- The string held by a truthy `extracted_content`. -/
def optStr : Option String → String
  | none => ""
  | some s => s

/-- `needle` is a prefix of `hay` (character lists). -/
def beginsWith : List Char → List Char → Bool
  | [], _ => true
  | _ :: _, [] => false
  | a :: as, b :: bs => a == b && beginsWith as bs

/-- `needle` occurs somewhere in `hay` (character lists). -/
def containsSub (needle : List Char) : List Char → Bool
  | [] => beginsWith needle []
  | c :: rest => beginsWith needle (c :: rest) || containsSub needle rest

/-- Python `needle in hay` on strings: substring occurrence. -/
def hasSubstr (hay needle : String) : Bool :=
  containsSub needle.toList hay.toList

/-- The literal marker `scraper_utils.check_no_results` looks for. -/
def noResultsMessage : String := "No Results Found"

/-- `scraper_utils.check_no_results`: on a successful lightweight fetch,
whether `"No Results Found"` occurs in `result.cleaned_html`; on a failed
fetch it logs and returns `False`. -/
def check_no_results (result : CrawlResult) : Bool :=
  if result.success then hasSubstr result.cleaned_html noResultsMessage
  else false

/-- The normalization step of `fetch_and_process_page`'s loop:
`if product.get("error") is False: product.pop("error", None)`. -/
def normalizeError (product : Record) : Record :=
  match lookupKey product "error" with
  | some (Val.vbool false) => eraseKey product "error"
  | _ => product

/-- The per-product loop of `scraper_utils.fetch_and_process_page`
(lines 172-191): normalize the `error` marker, skip incomplete products,
skip duplicates, otherwise record the name as seen and append the product.
`none` models the KeyError raised by `product["name"]` when a complete
product lacks the `name` field.  Returns the accepted products in
extraction order together with the final seen-name set. -/
def processProducts (required_keys : List String) :
    List Record → List Val → Option (List Record × List Val)
  | [], seen_names => some ([], seen_names)
  | product :: rest, seen_names =>
    let p := normalizeError product
    if is_complete_product p required_keys then
      match lookupKey p "name" with
      | none => none
      | some product_name =>
        if is_duplicate_product product_name seen_names then
          processProducts required_keys rest seen_names
        else
          match processProducts required_keys rest (addSeen seen_names product_name) with
          | none => none
          | some (out, seen2) => some (p :: out, seen2)
    else
      processProducts required_keys rest seen_names

/-- The part of `scraper_utils.fetch_and_process_page` after the
`check_no_results` gate: the extraction fetch result is inspected, its
content parsed by `loads` (`json.loads`; `Except.error` = the exception
propagates uncaught), and the product loop run.  The value is the Python
return pair `(complete_products, no_results_flag)` together with the final
state of the `seen_names` set (mutated in place in the source). -/
def extractionPhase (loads : String → Except String (List Record))
    (result : CrawlResult) (required_keys : List String) (seen_names : List Val) :
    Except String ((List Record × Bool) × List Val) :=
  if !(result.success && contentTruthy result.extracted_content) then
    Except.ok (([], false), seen_names)
  else
    match loads (optStr result.extracted_content) with
    | Except.error e => Except.error e
    | Except.ok extracted_data =>
      if extracted_data.isEmpty then Except.ok (([], false), seen_names)
      else
        match processProducts required_keys extracted_data seen_names with
        | none => Except.error "KeyError: name"
        | some (complete_products, seen2) =>
          if complete_products.isEmpty then Except.ok (([], false), seen2)
          else Except.ok ((complete_products, false), seen2)

/-- `scraper_utils.fetch_and_process_page`: first the lightweight
`check_no_results` fetch (`lite`), returning `([], True)` when the marker
is found; otherwise the extraction phase on the extraction fetch result. -/
def fetch_and_process_page (loads : String → Except String (List Record))
    (lite : CrawlResult) (result : CrawlResult)
    (required_keys : List String) (seen_names : List Val) :
    Except String ((List Record × Bool) × List Val) :=
  if check_no_results lite then Except.ok (([], true), seen_names)
  else extractionPhase loads result required_keys seen_names

/-- The required keys of the venue crawl in `src/main.py` (lines 76-87). -/
def venueRequiredKeys : List String :=
  ["name", "price", "location", "capacity", "rating", "reviews", "description"]

/-- The inline completeness filter of `src/main.py` (lines 74-89):
`[venue for venue in extracted_data if all(key in venue for key in [...])]`
— key presence only, no truthiness test. -/
def completeVenues (extracted_data : List Record) : List Record :=
  extracted_data.filter (fun venue =>
    venueRequiredKeys.all (fun key => hasKey venue key))

/-- The crawl state of `src/main.py`'s loop: the page number and the
accumulated venue list. -/
structure MainState where
  page_number : Nat
  all_venues : List Record
  deriving DecidableEq

/-- The initial crawl state of `src/main.py`: `page_number = 1`,
`all_venues = []`. -/
def mainInit : MainState := { page_number := 1, all_venues := [] }

/-- How one iteration of `src/main.py`'s `while True` loop ends: continue
to the next page, break on empty extraction ("No more venues found"), or
break on a failed fetch ("Error: ..."). -/
inductive MainStepOutcome where
  | next (st : MainState)
  | noMoreVenues (st : MainState)
  | fetchError (st : MainState)
  deriving DecidableEq

/-- One iteration of `src/main.py`'s crawl loop (lines 53-103) on fetch
result `result`: parse the extracted content (`Except.error` = the
`json.loads` exception propagates), break on empty data or failed fetch,
otherwise extend `all_venues` with the complete venues and increment the
page number. -/
def mainStep (loads : String → Except String (List Record))
    (result : CrawlResult) (st : MainState) : Except String MainStepOutcome :=
  if result.success && contentTruthy result.extracted_content then
    match loads (optStr result.extracted_content) with
    | Except.error e => Except.error e
    | Except.ok extracted_data =>
      if extracted_data.isEmpty then Except.ok (MainStepOutcome.noMoreVenues st)
      else Except.ok (MainStepOutcome.next
        { page_number := st.page_number + 1,
          all_venues := st.all_venues ++ completeVenues extracted_data })
  else Except.ok (MainStepOutcome.fetchError st)

/-- A `Val` as the csv module writes it (`None` → empty, booleans →
`True`/`False`). -/
def csvValue : Val → String
  | Val.vstr s => s
  | Val.vnull => ""
  | Val.vbool b => if b then "True" else "False"

/-- The field names of `models/venue.Product`
(`Product.model_fields.keys()`). -/
def productFieldnames : List String :=
  ["name", "category", "price", "brand", "image_url"]

/-- One csv data row: the record projected onto the fieldnames, a missing
key filled with the DictWriter restval (`None`, written as `""`). -/
def csvRow (fieldnames : List String) (rec : Record) : List String :=
  fieldnames.map (fun key => csvValue ((lookupKey rec key).getD Val.vnull))

/-- `csv.DictWriter.writerows` under the default `extrasaction` of
`raise`: a record carrying a key outside the fieldnames raises ValueError
(`Except.error`); otherwise every record is projected onto the fieldnames
in order. -/
def writeRows (fieldnames : List String) :
    List Record → Except String (List (List String))
  | [] => Except.ok []
  | rec :: rest =>
    if rec.all (fun kv => fieldnames.contains kv.1) then
      match writeRows fieldnames rest with
      | Except.error e => Except.error e
      | Except.ok rows => Except.ok (csvRow fieldnames rec :: rows)
    else Except.error "ValueError: dict contains fields not in fieldnames"

/-- `data_utils.save_products_to_csv`: `Except.ok none` models the early
`if not products: return` (no file written); `Except.ok (some ...)` is the
header and data rows of the csv file written via a `DictWriter` over the
`Product` fieldnames; `Except.error` is the ValueError the writer raises
for a record with a key outside those fieldnames. -/
def save_products_to_csv (products : List Record) :
    Except String (Option (List String × List (List String))) :=
  if products.isEmpty then Except.ok none
  else
    match writeRows productFieldnames products with
    | Except.error e => Except.error e
    | Except.ok rows => Except.ok (some (productFieldnames, rows))

/-- The final block of `src/main.py` (lines 104-114): the csv file is
written only under `if all_venues:`; with an empty accumulation nothing is
persisted (`Except.ok none`).  Field names come from
`all_venues[0].keys()`, and a venue with a key outside them makes the
`DictWriter` raise ValueError (`Except.error`). -/
def mainSave (all_venues : List Record) :
    Except String (Option (List String × List (List String))) :=
  match all_venues with
  | [] => Except.ok none
  | v0 :: _ =>
    let fieldnames := v0.map (fun kv => kv.1)
    match writeRows fieldnames all_venues with
    | Except.error e => Except.error e
    | Except.ok rows => Except.ok (some (fieldnames, rows))

/-! ### Concrete fixtures used to exercise the embedded code -/

/-- A complete record named `"A"` (r1 of the spec's duplicate scenario). -/
def recA : Record := [("name", Val.vstr "A")]

/-- A complete record named `"B"` (r2 of the spec's duplicate scenario). -/
def recB : Record := [("name", Val.vstr "B")]

/-- A record whose `name` is `None`, hence incomplete for `["name"]`. -/
def recNullName : Record := [("name", Val.vnull)]

/-- A record carrying every venue key mapped to the empty string. -/
def recAllEmpty : Record := venueRequiredKeys.map (fun key => (key, Val.vstr ""))

/-- A successful lightweight fetch whose page shows no marker. -/
def liteOK : CrawlResult :=
  { success := true, cleaned_html := "", extracted_content := none, error_message := "" }

/-- A successful lightweight fetch whose page contains the marker. -/
def liteMarker : CrawlResult :=
  { success := true, cleaned_html := "xx No Results Found yy",
    extracted_content := none, error_message := "" }

/-- A failed lightweight fetch (its html even contains the marker). -/
def liteFail : CrawlResult :=
  { success := false, cleaned_html := "No Results Found",
    extracted_content := none, error_message := "timeout" }

/-- A successful extraction fetch with truthy extracted content. -/
def resOK : CrawlResult :=
  { success := true, cleaned_html := "", extracted_content := some "[...]",
    error_message := "" }

/-- An extractor whose parsed output is the candidate list
`[r1(name=A), r2(name=B), r3(name=A)]`. -/
def loadsABA : String → Except String (List Record) := fun _ =>
  Except.ok [recA, recB, recA]

/-- An extractor whose parsed output is one incomplete candidate. -/
def loadsIncomplete : String → Except String (List Record) := fun _ =>
  Except.ok [recNullName]

/-- An extractor whose parsed output is the single complete candidate
`r(name=A)`. -/
def loadsA : String → Except String (List Record) := fun _ =>
  Except.ok [recA]

/-- A `json.loads` that raises on the malformed extracted content. -/
def loadsMalformed : String → Except String (List Record) := fun _ =>
  Except.error "JSONDecodeError: Expecting value"

/-! ### Helper lemmas -/

/-- After `eraseKey`, the key no longer resolves. -/
theorem lookupKey_eraseKey_self (r : Record) (key : String) :
    lookupKey (eraseKey r key) key = none := by
  induction r with
  | nil => rfl
  | cons kv rest ih =>
    obtain ⟨k1, v⟩ := kv
    simp only [eraseKey]
    by_cases hk : k1 == key
    · simp only [hk, if_true, ih]
    · simp only [hk, if_false, lookupKey, ih]
      simp only [Bool.not_eq_true] at hk
      simp [hk]

/-- `addSeen` never loses a member. -/
theorem mem_addSeen (seen_names : List Val) (product_name x : Val)
    (hx : x ∈ seen_names) : x ∈ addSeen seen_names product_name := by
  unfold addSeen
  split
  · exact hx
  · exact List.mem_append_left _ hx

/-- The seen-name set threaded through the product loop only grows. -/
theorem processProducts_seen_subset (required_keys : List String) :
    ∀ (data : List Record) (seen_names : List Val) (out : List Record)
      (seen2 : List Val),
    processProducts required_keys data seen_names = some (out, seen2) →
    seen_names ⊆ seen2 := by
  intro data
  induction data with
  | nil =>
    intro seen_names out seen2 h
    simp only [processProducts, Option.some.injEq, Prod.mk.injEq] at h
    rw [← h.2]
    exact fun x hx => hx
  | cons product rest ih =>
    intro seen_names out seen2 h
    simp only [processProducts] at h
    split at h
    · split at h
      · exact absurd h (by simp)
      · split at h
        · exact ih seen_names out seen2 h
        · split at h
          · exact absurd h (by simp)
          · rename_i out1 s1 hrec
            simp only [Option.some.injEq, Prod.mk.injEq] at h
            have hsub := ih _ out1 s1 hrec
            rw [← h.2]
            exact fun x hx => hsub (mem_addSeen seen_names _ x hx)
    · exact ih seen_names out seen2 h

/-- Every `Except.ok` result of the extraction phase carries flag `false`:
the stop flag is only ever set by the no-results marker, never by the
product loop. -/
theorem extractionPhase_flag_false (loads : String → Except String (List Record))
    (result : CrawlResult) (required_keys : List String) (seen_names : List Val)
    (out : List Record) (flag : Bool) (seen2 : List Val)
    (h : extractionPhase loads result required_keys seen_names =
      Except.ok ((out, flag), seen2)) : flag = false := by
  unfold extractionPhase at h
  split at h
  · simp only [Except.ok.injEq, Prod.mk.injEq] at h
    exact h.1.2.symm
  · split at h
    · exact absurd h (by simp)
    · split at h
      · simp only [Except.ok.injEq, Prod.mk.injEq] at h
        exact h.1.2.symm
      · split at h
        · exact absurd h (by simp)
        · split at h
          · simp only [Except.ok.injEq, Prod.mk.injEq] at h
            exact h.1.2.symm
          · simp only [Except.ok.injEq, Prod.mk.injEq] at h
            exact h.1.2.symm

/-- When every record's keys lie within the fieldnames, the csv writer
raises nothing and emits one projected row per record. -/
theorem writeRows_ok (fieldnames : List String) :
    ∀ data : List Record,
    data.all (fun rec => rec.all (fun kv => fieldnames.contains kv.1)) = true →
    writeRows fieldnames data = Except.ok (data.map (csvRow fieldnames)) := by
  intro data
  induction data with
  | nil => intro h; rfl
  | cons rec rest ih =>
    intro h
    rw [List.all_cons, Bool.and_eq_true] at h
    simp only [writeRows, h.1, if_true, ih h.2, List.map_cons]

/-! ### Claim theorems -/

/-- C7: the termination detector returns true whenever the configured
"no more results" marker occurs as a substring of the successfully fetched
raw page content, and whenever it returns true `fetch_and_process_page`
returns `([], True)` without consulting the extraction fetch or the parser
(the lightweight check runs prior to the full extraction). -/
theorem noResultsMarker_terminates :
    (∀ lite : CrawlResult, lite.success = true →
      hasSubstr lite.cleaned_html noResultsMessage = true →
      check_no_results lite = true)
    ∧ (∀ (loads : String → Except String (List Record))
        (lite result : CrawlResult) (required_keys : List String)
        (seen_names : List Val),
        check_no_results lite = true →
        fetch_and_process_page loads lite result required_keys seen_names =
          Except.ok (([], true), seen_names)) := by
  constructor
  · intro lite hs hm
    simp [check_no_results, hs, hm]
  · intro loads lite result required_keys seen_names h
    simp [fetch_and_process_page, h]

/-- Witness for C7 at the concrete marker page `liteMarker`. -/
theorem noResultsMarker_terminates_witness :
    check_no_results liteMarker = true ∧
    fetch_and_process_page loadsABA liteMarker resOK ["name"] [] =
      Except.ok (([], true), []) :=
  ⟨noResultsMarker_terminates.1 liteMarker rfl rfl,
   noResultsMarker_terminates.2 loadsABA liteMarker resOK ["name"] []
     (noResultsMarker_terminates.1 liteMarker rfl rfl)⟩

/-- C10: when the lightweight fetch fails (`success = False`), the
termination detector returns false rather than an error, and
`fetch_and_process_page` proceeds to the full extraction phase for the
same page instead of terminating. -/
theorem failedLiteFetch_proceeds :
    ∀ lite : CrawlResult, lite.success = false →
      check_no_results lite = false
      ∧ ∀ (loads : String → Except String (List Record)) (result : CrawlResult)
          (required_keys : List String) (seen_names : List Val),
          fetch_and_process_page loads lite result required_keys seen_names =
            extractionPhase loads result required_keys seen_names := by
  intro lite hs
  have hcn : check_no_results lite = false := by simp [check_no_results, hs]
  exact ⟨hcn, fun loads result required_keys seen_names => by
    simp [fetch_and_process_page, hcn]⟩

/-- Witness for C10 at the concrete failed fetch `liteFail`, whose html
even contains the marker. -/
theorem failedLiteFetch_proceeds_witness :
    check_no_results liteFail = false
    ∧ fetch_and_process_page loadsA liteFail resOK ["name"] [] =
        extractionPhase loadsA resOK ["name"] [] :=
  ⟨(failedLiteFetch_proceeds liteFail rfl).1,
   (failedLiteFetch_proceeds liteFail rfl).2 loadsA resOK ["name"] []⟩

/-- C9: a candidate carrying an `error` marker equal to `False` is
processed exactly as the record with that marker removed — the marker is
dropped before the completeness and duplicate checks and is absent from
the record thereafter. -/
theorem errorMarker_dropped (product : Record) (rest : List Record)
    (required_keys : List String) (seen_names : List Val)
    (h : lookupKey product "error" = some (Val.vbool false)) :
    processProducts required_keys (product :: rest) seen_names =
      processProducts required_keys (eraseKey product "error" :: rest) seen_names
    ∧ lookupKey (eraseKey product "error") "error" = none := by
  constructor
  · simp only [processProducts, normalizeError, h, lookupKey_eraseKey_self]
  · exact lookupKey_eraseKey_self product "error"

/-- Witness for C9 at a concrete record with `error = False`. -/
theorem errorMarker_dropped_witness :
    processProducts ["name"] [[("error", Val.vbool false), ("name", Val.vstr "A")]] [] =
      processProducts ["name"]
        [eraseKey [("error", Val.vbool false), ("name", Val.vstr "A")] "error"] []
    ∧ lookupKey (eraseKey [("error", Val.vbool false), ("name", Val.vstr "A")] "error")
        "error" = none :=
  errorMarker_dropped [("error", Val.vbool false), ("name", Val.vstr "A")] [] ["name"] [] rfl

/-- C6: skip-on-duplicate: on the candidate list
`[r1(name=A), r2(name=B), r3(name=A)]` with an empty ledger the page
processor returns accepted `[r1, r2]` in extraction order with
`no_results_flag = False`; in general a candidate whose (normalized)
identity is already in the ledger is skipped, and no `Except.ok` outcome
of the extraction phase ever carries a true stop flag. -/
theorem skipOnDuplicate_policy :
    (fetch_and_process_page loadsABA liteOK resOK ["name"] [] =
      Except.ok (([recA, recB], false), [Val.vstr "A", Val.vstr "B"]))
    ∧ (∀ (product : Record) (rest : List Record) (required_keys : List String)
        (seen_names : List Val) (product_name : Val),
        lookupKey (normalizeError product) "name" = some product_name →
        is_duplicate_product product_name seen_names = true →
        processProducts required_keys (product :: rest) seen_names =
          processProducts required_keys rest seen_names)
    ∧ (∀ (loads : String → Except String (List Record)) (result : CrawlResult)
        (required_keys : List String) (seen_names : List Val)
        (out : List Record) (flag : Bool) (seen2 : List Val),
        extractionPhase loads result required_keys seen_names =
          Except.ok ((out, flag), seen2) → flag = false) := by
  refine ⟨rfl, ?_, extractionPhase_flag_false⟩
  intro product rest required_keys seen_names product_name hn hd
  by_cases hc : is_complete_product (normalizeError product) required_keys
  · simp [processProducts, hc, hn, hd]
  · simp [processProducts, hc]

/-- Witness for C6: the duplicate `recA` is skipped over the ledger
`["A"]`, and a concrete `Except.ok` outcome of the extraction phase has a
false flag. -/
theorem skipOnDuplicate_policy_witness :
    (processProducts ["name"] [recA, recB] [Val.vstr "A"] =
      processProducts ["name"] [recB] [Val.vstr "A"])
    ∧ (false : Bool) = false :=
  ⟨skipOnDuplicate_policy.2.1 recA [recB] ["name"] [Val.vstr "A"] (Val.vstr "A") rfl rfl,
   skipOnDuplicate_policy.2.2 loadsABA resOK ["name"] [] [recA, recB] false
     [Val.vstr "A", Val.vstr "B"] rfl⟩

/-- C8: the crawl-state invariants: the page number starts at 1 and each
continuing iteration of `src/main.py`'s loop increments it by exactly 1
while only appending to the accumulated venue list, and the seen-name set
threaded through the page processor's loop never loses an element. -/
theorem crawlState_invariants :
    mainInit.page_number = 1
    ∧ (∀ (loads : String → Except String (List Record)) (result : CrawlResult)
        (st st' : MainState),
        mainStep loads result st = Except.ok (MainStepOutcome.next st') →
        st'.page_number = st.page_number + 1
        ∧ ∃ new, st'.all_venues = st.all_venues ++ new)
    ∧ (∀ (required_keys : List String) (data : List Record)
        (seen_names : List Val) (out : List Record) (seen2 : List Val),
        processProducts required_keys data seen_names = some (out, seen2) →
        seen_names ⊆ seen2) := by
  refine ⟨rfl, ?_, processProducts_seen_subset⟩
  intro loads result st st' h
  unfold mainStep at h
  split at h
  · split at h
    · exact absurd h (by simp)
    · split at h
      · exact absurd h (by simp)
      · simp only [Except.ok.injEq, MainStepOutcome.next.injEq] at h
        rw [← h]
        exact ⟨rfl, ⟨_, rfl⟩⟩
  · exact absurd h (by simp)

/-- Witness for C8: one concrete continuing iteration from the initial
state, and one concrete seen-set extension. -/
theorem crawlState_invariants_witness :
    (({ page_number := 2, all_venues := [] } : MainState).page_number =
        mainInit.page_number + 1
      ∧ ∃ new, ({ page_number := 2, all_venues := [] } : MainState).all_venues =
          mainInit.all_venues ++ new)
    ∧ ([Val.vstr "A"] ⊆ [Val.vstr "A", Val.vstr "B"]) :=
  ⟨crawlState_invariants.2.1 loadsABA resOK mainInit
      { page_number := 2, all_venues := [] } rfl,
   crawlState_invariants.2.2 ["name"] [recB] [Val.vstr "A"] [recB]
      [Val.vstr "A", Val.vstr "B"] rfl⟩

/-- Bool-to-Prop characterization of `is_complete_product`: complete iff
every required key resolves to a truthy value. -/
theorem is_complete_product_iff (product : Record) (required_keys : List String) :
    is_complete_product product required_keys = true ↔
      ∀ key ∈ required_keys, ∃ v, lookupKey product key = some v ∧ truthy v = true := by
  rw [is_complete_product, List.all_eq_true]
  constructor
  · intro h key hk
    have hkey := h key hk
    cases hv : lookupKey product key with
    | none => rw [hv] at hkey; exact absurd hkey (by simp)
    | some v => rw [hv] at hkey; exact ⟨v, rfl, hkey⟩
  · intro h key hk
    obtain ⟨v, hv, ht⟩ := h key hk
    rw [hv]
    exact ht

/-- C1 counterexample: there is no stop-on-duplicate policy in the code.
Processing the candidates `[r1(name=A), r2(name=B), r3(name=A)]` (all
complete for `["name"]`) with an empty ledger returns accepted `[r1, r2]`
with stop flag `False` — the result never carries a true stop flag, so the
claimed Policy A outcome `([r1, r2], stop_signal = true)` does not occur. -/
theorem stopOnDuplicate_counterexample :
    fetch_and_process_page loadsABA liteOK resOK ["name"] [] =
      Except.ok (([recA, recB], false), [Val.vstr "A", Val.vstr "B"])
    ∧ ¬ ∃ (accepted : List Record) (seen2 : List Val),
        fetch_and_process_page loadsABA liteOK resOK ["name"] [] =
          Except.ok ((accepted, true), seen2) := by
  refine ⟨rfl, ?_⟩
  rintro ⟨accepted, seen2, h⟩
  have h2 : ((([recA, recB] : List Record), false), [Val.vstr "A", Val.vstr "B"]) =
      ((accepted, true), seen2) :=
    Except.ok.inj ((rfl : fetch_and_process_page loadsABA liteOK resOK ["name"] [] =
      Except.ok (([recA, recB], false), [Val.vstr "A", Val.vstr "B"])).symm.trans h)
  simp at h2

/-- C1 amended: the page processor supports only skip-on-duplicate; on the
Policy-A scenario it returns accepted `[r1, r2]` with stop flag `False`,
skipping the duplicate r3. -/
theorem stopOnDuplicate_amended :
    fetch_and_process_page loadsABA liteOK resOK ["name"] [] =
      Except.ok (([recA, recB], false), [Val.vstr "A", Val.vstr "B"]) := rfl

/-- C2 counterexample: the inline completeness filter of `src/main.py`
accepts a record all of whose required keys are mapped to the empty string
(a falsy value), while `is_complete_product` classifies the same record as
incomplete — so the repository's acceptance checks do not agree with
"present with a truthy value" across the board. -/
theorem completenessTruthiness_counterexample :
    completeVenues [recAllEmpty] = [recAllEmpty]
    ∧ is_complete_product recAllEmpty venueRequiredKeys = false := ⟨rfl, rfl⟩

/-- C2 amended: `is_complete_product` (the completeness check of
`fetch_and_process_page`) returns true iff every required key is present
with a truthy value, and a record missing a required key or mapping one to
a falsy value is rejected; the inline check of `src/main.py` tests key
presence only. -/
theorem completenessTruthiness_amended :
    ∀ (product : Record) (required_keys : List String),
      (is_complete_product product required_keys = true ↔
        ∀ key ∈ required_keys, ∃ v, lookupKey product key = some v ∧ truthy v = true)
      ∧ (∀ key ∈ required_keys,
          (lookupKey product key = none ∨
            ∃ v, lookupKey product key = some v ∧ truthy v = false) →
          is_complete_product product required_keys = false) := by
  intro product required_keys
  refine ⟨is_complete_product_iff product required_keys, ?_⟩
  intro key hk hbad
  cases hic : is_complete_product product required_keys with
  | false => rfl
  | true =>
    exfalso
    obtain ⟨v, hv, ht⟩ := (is_complete_product_iff product required_keys).mp hic key hk
    cases hbad with
    | inl h0 => rw [h0] at hv; cases hv
    | inr h1 =>
      obtain ⟨w, hw, hwf⟩ := h1
      rw [hv] at hw
      rw [Option.some.injEq] at hw
      rw [hw] at ht
      rw [ht] at hwf
      cases hwf

/-- Witness for C2 amended: a record whose `name` is the empty string is
rejected by `is_complete_product`. -/
theorem completenessTruthiness_amended_witness :
    is_complete_product recAllEmpty venueRequiredKeys = false :=
  (completenessTruthiness_amended recAllEmpty venueRequiredKeys).2 "name"
    (by simp [venueRequiredKeys]) (Or.inr ⟨Val.vstr "", rfl, rfl⟩)

/-- C3 counterexample: two inputs with the same ledger `{"A"}` — one whose
only candidate is incomplete, one whose only candidate is a complete
duplicate — produce identical results from `fetch_and_process_page`, so
the return value does not distinguish "zero accepted because no candidate
was complete" from "page had a duplicate". -/
theorem emptyVsDuplicate_counterexample :
    fetch_and_process_page loadsIncomplete liteOK resOK ["name"] [Val.vstr "A"] =
      fetch_and_process_page loadsA liteOK resOK ["name"] [Val.vstr "A"]
    ∧ is_complete_product recNullName ["name"] = false
    ∧ is_complete_product recA ["name"] = true
    ∧ is_duplicate_product (Val.vstr "A") [Val.vstr "A"] = true :=
  ⟨rfl, rfl, rfl, rfl⟩

/-- C3 amended: both the all-incomplete page and the duplicate-only page
return the same `([], False)` (with the seen set unchanged); the return
value distinguishes only the no-results-marker outcome, not emptiness from
duplication. -/
theorem emptyVsDuplicate_amended :
    fetch_and_process_page loadsIncomplete liteOK resOK ["name"] [Val.vstr "A"] =
      Except.ok (([], false), [Val.vstr "A"])
    ∧ fetch_and_process_page loadsA liteOK resOK ["name"] [Val.vstr "A"] =
      Except.ok (([], false), [Val.vstr "A"]) := ⟨rfl, rfl⟩

/-- C4 counterexample: with malformed (non-JSON-parseable) extracted
content, `json.loads` raises and the exception propagates out of both
`fetch_and_process_page` and the crawl loop iteration of `src/main.py` —
the code does not take the zero-candidates path and does surface a raw
exception. -/
theorem malformedContent_counterexample :
    fetch_and_process_page loadsMalformed liteOK resOK ["name"] [] =
      Except.error "JSONDecodeError: Expecting value"
    ∧ mainStep loadsMalformed resOK mainInit =
      Except.error "JSONDecodeError: Expecting value"
    ∧ ¬ ∃ outcome, mainStep loadsMalformed resOK mainInit = Except.ok outcome := by
  refine ⟨rfl, rfl, ?_⟩
  rintro ⟨outcome, h⟩
  have h2 : (Except.error "JSONDecodeError: Expecting value" :
      Except String MainStepOutcome) = Except.ok outcome :=
    ((rfl : mainStep loadsMalformed resOK mainInit =
      Except.error "JSONDecodeError: Expecting value")).symm.trans h
  exact Except.noConfusion h2

/-- C4 amended: whenever the extracted content is truthy but `json.loads`
raises, the exception propagates unchanged out of `fetch_and_process_page`
and out of the loop iteration of `src/main.py`; only falsy content or a
parsed-empty list follows the zero-candidates path. -/
theorem malformedContent_amended :
    ∀ (loads : String → Except String (List Record)) (lite result : CrawlResult)
      (required_keys : List String) (seen_names : List Val) (e : String)
      (st : MainState),
      check_no_results lite = false →
      (result.success && contentTruthy result.extracted_content) = true →
      loads (optStr result.extracted_content) = Except.error e →
      fetch_and_process_page loads lite result required_keys seen_names = Except.error e
      ∧ mainStep loads result st = Except.error e := by
  intro loads lite result required_keys seen_names e st h1 h2 h3
  constructor
  · simp [fetch_and_process_page, h1, extractionPhase, h2, h3]
  · simp [mainStep, h2, h3]

/-- Witness for C4 amended at the concrete malformed-content page. -/
theorem malformedContent_amended_witness :
    fetch_and_process_page loadsMalformed liteOK resOK ["name"] [] =
      Except.error "JSONDecodeError: Expecting value"
    ∧ mainStep loadsMalformed resOK mainInit =
      Except.error "JSONDecodeError: Expecting value" :=
  malformedContent_amended loadsMalformed liteOK resOK ["name"] []
    "JSONDecodeError: Expecting value" mainInit rfl rfl rfl

/-- C5 counterexample: with zero accumulated records neither saver writes
anything — `save_products_to_csv` returns on `if not products` and
`src/main.py` writes only under `if all_venues` — so reaching a terminal
state with an empty accumulation does not trigger persistence
(`Except.ok none`: the code returns without writing a file). -/
theorem zeroRecordsPersistence_counterexample :
    save_products_to_csv [] = Except.ok none
    ∧ mainSave [] = Except.ok none := ⟨rfl, rfl⟩

/-- C5 amended: reaching a terminal state persists the accumulation only
when it is non-empty: with zero records both savers return without
writing; a non-empty accumulation whose records' keys all lie within the
csv fieldnames is written in full, while a leading record with a key
outside the fieldnames makes the csv writer raise ValueError instead of
persisting. -/
theorem zeroRecordsPersistence_amended :
    ∀ products : List Record,
      (products = [] →
        save_products_to_csv products = Except.ok none
        ∧ mainSave products = Except.ok none)
      ∧ (products.all (fun rec => rec.all
            (fun kv => productFieldnames.contains kv.1)) = true →
          products ≠ [] →
          save_products_to_csv products = Except.ok (some (productFieldnames,
            products.map (csvRow productFieldnames))))
      ∧ (∀ (v0 : Record) (rest : List Record), products = v0 :: rest →
          products.all (fun rec => rec.all
            (fun kv => (v0.map (fun kv2 => kv2.1)).contains kv.1)) = true →
          mainSave products = Except.ok (some (v0.map (fun kv2 => kv2.1),
            products.map (csvRow (v0.map (fun kv2 => kv2.1))))))
      ∧ (∀ (rec : Record) (rest : List Record),
          rec.all (fun kv => productFieldnames.contains kv.1) = false →
          save_products_to_csv (rec :: rest) =
            Except.error "ValueError: dict contains fields not in fieldnames") := by
  intro products
  refine ⟨?_, ?_, ?_, ?_⟩
  · rintro rfl
    exact ⟨rfl, rfl⟩
  · intro hall hne
    cases products with
    | nil => exact absurd rfl hne
    | cons p rest =>
      have hw := writeRows_ok productFieldnames (p :: rest) hall
      simp [save_products_to_csv, hw]
  · intro v0 rest heq hall
    subst heq
    have hw := writeRows_ok (v0.map (fun kv2 => kv2.1)) (v0 :: rest) hall
    simp [mainSave, hw]
  · intro rec rest hbad
    have hw : writeRows productFieldnames (rec :: rest) =
        Except.error "ValueError: dict contains fields not in fieldnames" := by
      unfold writeRows
      rw [hbad]
      rfl
    simp [save_products_to_csv, hw]

/-- Witness for C5 amended: the empty accumulation is not persisted, a
singleton within the fieldnames is written, and a record with a key
outside the fieldnames raises. -/
theorem zeroRecordsPersistence_amended_witness :
    (save_products_to_csv [] = Except.ok none ∧ mainSave [] = Except.ok none)
    ∧ save_products_to_csv [recA] =
        Except.ok (some (productFieldnames, [csvRow productFieldnames recA]))
    ∧ mainSave [recA] =
        Except.ok (some (["name"], [csvRow ["name"] recA]))
    ∧ save_products_to_csv [[("extra", Val.vstr "x")]] =
        Except.error "ValueError: dict contains fields not in fieldnames" :=
  ⟨(zeroRecordsPersistence_amended []).1 rfl,
   (zeroRecordsPersistence_amended [recA]).2.1 rfl (by simp),
   (zeroRecordsPersistence_amended [recA]).2.2.1 recA [] rfl rfl,
   (zeroRecordsPersistence_amended [[("extra", Val.vstr "x")]]).2.2.2
     [("extra", Val.vstr "x")] [] rfl⟩
